import Mathlib

/-!
# Verification of the aerominds depth-map viewer

Shallow embedding of the frontend (`src/frontend/src/app/page.jsx`,
`src/frontend/src/components/Viewer3D.jsx`, and the alternate page
`src/unnamed/part_000`, whose `handleUpload` is identical) together with a
spec-modelled backend pipeline (the FastAPI backend `backend/main.py` /
`backend/gemini_service.py` is referenced by the readme but its source is
not part of the repository snapshot).
-/

namespace Aerominds

/-! ## Frontend page model (`page.jsx` / `part_000`)

Both page variants hold the same reactive state
(`selectedFile`, `previewUrl`, `depthUrl`, `loading`) and the same
`handleFileChange` / `handleUpload` logic; they differ only in markup.
URLs are modelled structurally so that the source's
`data.depth_map_url.replace("localhost", "127.0.0.1")` call is an
executable host rewrite. -/

/-- Host part of a URL: the backend may answer with a `localhost` host,
which `handleUpload` rewrites to `127.0.0.1` (modelled as `loopback127`). -/
inductive UrlHost where
  | localhost
  | loopback127
  | otherHost
deriving DecidableEq, Repr

/-- A URL: host plus an opaque path identifier. -/
structure Url where
  host : UrlHost
  path : Nat
deriving DecidableEq, Repr

/-- `data.depth_map_url.replace("localhost", "127.0.0.1")` from
`handleUpload` (page.jsx line 39). -/
def fixBackendHost (u : Url) : Url :=
  if u.host = UrlHost.localhost then { u with host := UrlHost.loopback127 } else u

/-- `URL.createObjectURL(file)` from `handleFileChange`: a blob URL derived
from the file identity. -/
def objectUrl (file : Nat) : Url :=
  { host := UrlHost.otherHost, path := file }

/-- The reactive state of the `Home` component: `selectedFile`,
`previewUrl`, `depthUrl`, `loading` (page.jsx lines 7-10). Files are
identified by a natural number. -/
structure HomeState where
  selectedFile : Option Nat
  previewUrl : Option Url
  depthUrl : Option Url
  loading : Bool
deriving DecidableEq, Repr

/-- Initial state: all `useState` initializers (`null`, `null`, `null`,
`false`). -/
def initialHomeState : HomeState :=
  { selectedFile := none, previewUrl := none, depthUrl := none, loading := false }

/-- `handleFileChange` (page.jsx lines 12-19): if a file was picked, store
it, set the preview to its object URL and reset the depth map to `null`;
otherwise do nothing. -/
def handleFileChange (s : HomeState) (file : Option Nat) : HomeState :=
  match file with
  | some f =>
      { s with selectedFile := some f, previewUrl := some (objectUrl f), depthUrl := none }
  | none => s

/-- Outcome of the `fetch("http://127.0.0.1:8000/upload", ...)` call inside
`handleUpload`: a successful JSON response carrying `depth_map_url`, a
non-ok HTTP status, or a thrown network error. -/
inductive FetchOutcome where
  | ok (depthMapUrl : Url)
  | httpError (status : Nat)
  | networkError
deriving DecidableEq, Repr

/-- The alert shown in the non-ok branch of `handleUpload`
(page.jsx line 43). -/
def httpAlert (status : Nat) : String :=
  "Upload failed: Server returned " ++ toString status

/-- The alert shown in the catch branch of `handleUpload`
(page.jsx line 47). -/
def networkAlert : String :=
  "Network Error: Failed to reach the server."

/-- The continuation of `handleUpload` after the `fetch` resolves
(page.jsx lines 35-50): on ok, store the host-rewritten `depth_map_url`;
on non-ok status or a thrown error, alert; in all cases the `finally`
block clears `loading`. The depth URL is stored unconditionally — the code
compares no request token or file identity before `setDepthUrl`. -/
def uploadCompletion (s : HomeState) (o : FetchOutcome) : HomeState × List String :=
  match o with
  | FetchOutcome.ok u =>
      ({ s with depthUrl := some (fixBackendHost u), loading := false }, [])
  | FetchOutcome.httpError st =>
      ({ s with loading := false }, [httpAlert st])
  | FetchOutcome.networkError =>
      ({ s with loading := false }, [networkAlert])

/-- The synchronous prefix of `handleUpload` (page.jsx lines 22-24):
return unchanged when no file is selected, otherwise set `loading := true`
and issue the request. `none` means no request was made. -/
def handleUploadStart (s : HomeState) : Option HomeState :=
  match s.selectedFile with
  | none => none
  | some _ => some { s with loading := true }

/-- One whole run of `handleUpload`: `midState` is the state while the
request is in flight (absent when the early return fired), `finalState`
the state after the continuation, `alerts` the alerts shown. -/
structure UploadRun where
  midState : Option HomeState
  finalState : HomeState
  alerts : List String
deriving DecidableEq, Repr

/-- `handleUpload` (page.jsx lines 21-51) as a function of the state and of
the fetch outcome. -/
def handleUpload (s : HomeState) (o : FetchOutcome) : UploadRun :=
  match handleUploadStart s with
  | none => { midState := none, finalState := s, alerts := [] }
  | some mid =>
      let done := uploadCompletion mid o
      { midState := some mid, finalState := done.1, alerts := done.2 }

/-! ### Interleaving model

A sequence of UI events, each applied to the state as the corresponding
fragment of `page.jsx` runs. An upload's start and its completion are
separate events, so two in-flight requests interleave arbitrarily; the
completion event carries the outcome of its own request but — exactly as
in the source — inspects no token identifying which request it belongs
to. -/

inductive UIEvent where
  | fileChange (file : Option Nat)
  | uploadStart
  | uploadComplete (o : FetchOutcome)
deriving DecidableEq, Repr

/-- One UI event applied to the page state, returning the new state and
any alerts shown. -/
def stepUI (s : HomeState) (e : UIEvent) : HomeState × List String :=
  match e with
  | UIEvent.fileChange f => (handleFileChange s f, [])
  | UIEvent.uploadStart =>
      match handleUploadStart s with
      | none => (s, [])
      | some mid => (mid, [])
  | UIEvent.uploadComplete o => uploadCompletion s o

/-- Run a list of UI events from a state, discarding alerts. -/
def runUI (s : HomeState) (es : List UIEvent) : HomeState :=
  es.foldl (fun st e => (stepUI st e).1) s

/-! ## Backend depth-estimation pipeline (spec-modelled)

The backend (`backend/main.py`, `backend/gemini_service.py`) is referenced
by the readme but its source is not in the repository snapshot, so the
pipeline behind the `/upload` endpoint is modelled from the spec
(§4.1 Depth Estimator, §4.2 Depth Map Normalizer, §7 error taxonomy). -/

/-- Modelled from the spec: an Image Asset — pixel buffer with width,
height, and per-pixel luminance (normalized 0.0-1.0 domain). -/
structure ImageAsset where
  width : Nat
  height : Nat
  pix : Nat → Nat → ℚ

/-- A well-formed (decodable, non-degenerate) image. -/
def ImageAsset.wellFormed (img : ImageAsset) : Prop :=
  0 < img.width ∧ 0 < img.height

/-- Modelled from the spec: a raw Depth Field as produced by an estimation
strategy — a single-channel grid, possibly at a resolution different from
the image's. -/
structure DepthField where
  width : Nat
  height : Nat
  val : Nat → Nat → ℚ

/-- Modelled from the spec: the ways the remote (primary) estimation
strategy can fail — timeout after retry, auth failure, malformed/non-image
response, or no network connectivity at all (§7 `RemoteServiceFailure`). -/
inductive RemoteFailure where
  | timeout
  | authFailure
  | malformedResponse
  | noConnectivity
deriving DecidableEq, Repr

/-- Modelled from the spec: outcome of the remote estimation call. -/
inductive RemoteResult where
  | ok (field : DepthField)
  | fail (f : RemoteFailure)

/-- Which estimation strategy produced the depth field (§4.1: the tag
travels with the Reconstruction Result but never changes behavior). -/
inductive EstimationPath where
  | primary
  | fallback
deriving DecidableEq, Repr

/-- Errors that terminate the pipeline in `Failed` (§7: only these two are
surfaced to the user). -/
inductive PipelineError where
  | invalidInput
  | normalizationFailure
deriving DecidableEq, Repr

/-- Modelled from the spec: the local fallback strategy — a pure,
deterministic, network-free function of the image's own pixel data
(a luminance-derived proxy) that always succeeds for a well-formed image
and inherits the image's own dimensions. -/
def fallbackEstimate (img : ImageAsset) : DepthField :=
  { width := img.width, height := img.height, val := fun x y => img.pix x y }

/-- Modelled from the spec: `estimate(image)` — try the remote primary
strategy; on any remote failure switch to the local fallback, recording
which path was taken. A hard failure occurs only when the image itself is
undecodable (handled one level up by `backendPipeline`). -/
def estimate (img : ImageAsset) (remote : RemoteResult) : DepthField × EstimationPath :=
  match remote with
  | RemoteResult.ok field => (field, EstimationPath.primary)
  | RemoteResult.fail _ => (fallbackEstimate img, EstimationPath.fallback)

/-- An aligned Depth Map: dimensions equal the source image's, values
clipped to the [0, 1] domain. -/
structure DepthMap where
  width : Nat
  height : Nat
  val : Nat → Nat → ℚ

/-- Clip a value to the [0, 1] numeric domain (§4.2). -/
def clip01 (v : ℚ) : ℚ := max 0 (min 1 v)

/-- Modelled from the spec: `normalize(depthField, imageAsset)` — resample
the field to the image's exact dimensions (nearest-neighbour resampling,
one of the two options §4.2 allows) and clip values to [0, 1]; fail with
`NormalizationFailure` when the output would be zero-sized or the field
has no samples to draw from. -/
def normalize (f : DepthField) (img : ImageAsset) : Except PipelineError DepthMap :=
  if img.width = 0 ∨ img.height = 0 ∨ f.width = 0 ∨ f.height = 0 then
    Except.error PipelineError.normalizationFailure
  else
    Except.ok
      { width := img.width, height := img.height,
        val := fun x y => clip01 (f.val (x * f.width / img.width) (y * f.height / img.height)) }

/-- Modelled from the spec: the whole backend pipeline behind `/upload` —
decode (an absent/undecodable image is an `InvalidInputError`), estimate
with primary-then-fallback, normalize. -/
def backendPipeline (input : Option ImageAsset) (remote : RemoteResult) :
    Except PipelineError (DepthMap × EstimationPath) :=
  match input with
  | none => Except.error PipelineError.invalidInput
  | some img =>
      let est := estimate img remote
      match normalize est.1 img with
      | Except.error e => Except.error e
      | Except.ok dm => Except.ok (dm, est.2)

/-- The pipeline state machine's terminal states (§4 closing paragraph:
`Idle → Estimating → Normalizing → Reconstructing → Ready`, with `Failed`
reachable only on the two fatal errors). -/
inductive PipelineFinal where
  | ready
  | failed (e : PipelineError)
deriving DecidableEq, Repr

/-- Terminal state reached by one pipeline run. -/
def pipelineFinalState (input : Option ImageAsset) (remote : RemoteResult) : PipelineFinal :=
  match backendPipeline input remote with
  | Except.ok _ => PipelineFinal.ready
  | Except.error e => PipelineFinal.failed e

/-- Modelled from the spec: the HTTP response the backend gives the
frontend — a `depth_map_url` (the readme notes the backend may answer with
`localhost` URLs) on success, a non-ok status on a fatal pipeline error. -/
def backendRespond (input : Option ImageAsset) (remote : RemoteResult) : FetchOutcome :=
  match backendPipeline input remote with
  | Except.ok _ => FetchOutcome.ok { host := UrlHost.localhost, path := 0 }
  | Except.error PipelineError.invalidInput => FetchOutcome.httpError 400
  | Except.error PipelineError.normalizationFailure => FetchOutcome.httpError 500

/-! ## 3D viewer model (`Viewer3D.jsx`)

The `Scene` component loads two textures (image and depth map), forces
`flipY = false` on both, builds a `THREE.PlaneGeometry(10, 10, 512, 512)`,
and renders it with a `MeshStandardMaterial` whose `displacementMap` is
the depth texture with `displacementScale: 2.5` and
`displacementBias: -0.5`. Displacement happens in the material's vertex
shader (`position + normal * (sample * scale + bias)`); it never writes
the geometry's position buffer, which is what `computeVertexNormals`
reads. -/

/-- Mutable orientation state of a three.js texture: only the `flipY`
flag matters here (three.js textures default to `flipY = true`). -/
structure TextureState where
  flipY : Bool
deriving DecidableEq, Repr

/-- A freshly loaded three.js texture. -/
def loadedTexture : TextureState := { flipY := true }

/-- The effect at Viewer3D.jsx lines 15-24: `texture.flipY = false` /
`depthMap.flipY = false` on both textures. -/
def flipEffect (t : TextureState) : TextureState := { t with flipY := false }

/-- The color texture as configured by the scene. -/
def sceneColorTexture : TextureState := flipEffect loadedTexture

/-- The depth/displacement texture as configured by the scene. -/
def sceneDepthTexture : TextureState := flipEffect loadedTexture

/-- The source-data coordinate a texture lookup at (u, v) reads: with
`flipY = true` the rows are flipped at upload, so (u, v) reads row 1 - v
of the source data; with `flipY = false` it reads row v unchanged. -/
def sampleCoord (t : TextureState) (u v : ℚ) : ℚ × ℚ :=
  if t.flipY then (u, 1 - v) else (u, v)

/-- Sample source data `data` through a texture at (u, v). -/
def sampleTexture (data : ℚ → ℚ → ℚ) (t : TextureState) (u v : ℚ) : ℚ :=
  data (sampleCoord t u v).1 (sampleCoord t u v).2

/-- `displacementScale: 2.5` (Viewer3D.jsx line 40). -/
def sceneDisplacementScale : ℚ := 5 / 2

/-- `displacementBias: -0.5` (Viewer3D.jsx line 41, commented
"Center the displacement"). -/
def sceneDisplacementBias : ℚ := -(1 / 2)

/-- Scalar vertical displacement the material applies at (u, v):
`texture2D(displacementMap, uv).x * displacementScale +
displacementBias`, sampled through the scene's depth texture. -/
def displacementAt (depth : ℚ → ℚ → ℚ) (scale bias u v : ℚ) : ℚ :=
  sampleTexture depth sceneDepthTexture u v * scale + bias

/-- Base color the material shows at (u, v), sampled through the scene's
color texture. -/
def colorAt (image : ℚ → ℚ → ℚ) (u v : ℚ) : ℚ :=
  sampleTexture image sceneColorTexture u v

/-! ### PlaneGeometry

`THREE.PlaneGeometry(width, height, gridX, gridY)` generates
`(gridX + 1) * (gridY + 1)` vertices: for `iy` in `0..gridY` and `ix` in
`0..gridX`, position `(ix * (width/gridX) - width/2,
-(iy * (height/gridY) - height/2), 0)`, normal `(0, 0, 1)`, uv
`(ix / gridX, 1 - iy / gridY)`, and two triangles per cell with flat
indices `a = ix + (gridX+1) * iy`, `b = ix + (gridX+1) * (iy+1)`,
`c = (ix+1) + (gridX+1) * (iy+1)`, `d = (ix+1) + (gridX+1) * iy`, faces
`(a, b, d)` and `(b, c, d)`. Vertices are indexed here by the pair
`(ix, iy)` in place of the flat index `ix + (gridX+1) * iy`. -/

/-- A 3-vector over ℚ. -/
structure Vec3 where
  x : ℚ
  y : ℚ
  z : ℚ
deriving DecidableEq, Repr

/-- Componentwise difference. -/
def Vec3.sub (a b : Vec3) : Vec3 := ⟨a.x - b.x, a.y - b.y, a.z - b.z⟩

/-- Cross product. -/
def Vec3.cross (a b : Vec3) : Vec3 :=
  ⟨a.y * b.z - a.z * b.y, a.z * b.x - a.x * b.z, a.x * b.y - a.y * b.x⟩

/-- Componentwise sum. -/
def Vec3.add (a b : Vec3) : Vec3 := ⟨a.x + b.x, a.y + b.y, a.z + b.z⟩

/-- Position of plane vertex `(ix, iy)`. -/
def planePosition (w h : ℚ) (gridX gridY : Nat) (v : Nat × Nat) : Vec3 :=
  ⟨(v.1 : ℚ) * (w / (gridX : ℚ)) - w / 2,
   -((v.2 : ℚ) * (h / (gridY : ℚ)) - h / 2), 0⟩

/-- Texture coordinate of plane vertex `(ix, iy)`:
`(ix / gridX, 1 - iy / gridY)`. -/
def planeUV (gridX gridY : Nat) (v : Nat × Nat) : ℚ × ℚ :=
  ((v.1 : ℚ) / (gridX : ℚ), 1 - (v.2 : ℚ) / (gridY : ℚ))

/-- The vertex list of `PlaneGeometry(w, h, gridX, gridY)`, in the
generation order of the source's nested loops. -/
def planeVertexList (w h : ℚ) (gridX gridY : Nat) : List Vec3 :=
  (List.range (gridY + 1)).flatMap fun iy =>
    (List.range (gridX + 1)).map fun ix => planePosition w h gridX gridY (ix, iy)

/-- A triangle face: three vertex indices (pA, pB, pC). -/
def Face : Type := (Nat × Nat) × (Nat × Nat) × (Nat × Nat)

/-- The index list of `PlaneGeometry`: per cell the faces `(a, b, d)` and
`(b, c, d)`. -/
def planeFaces (gridX gridY : Nat) : List Face :=
  (List.range gridY).flatMap fun iy =>
    (List.range gridX).flatMap fun ix =>
      [((ix, iy), (ix, iy + 1), (ix + 1, iy)),
       ((ix, iy + 1), (ix + 1, iy + 1), (ix + 1, iy))]

/-- The (un-normalized) face normal `computeVertexNormals` accumulates for
one face: `cb = pC - pB`, `ab = pA - pB`, `cb × ab`. -/
def faceCross (pos : Nat × Nat → Vec3) (f : Face) : Vec3 :=
  Vec3.cross (Vec3.sub (pos f.2.2) (pos f.2.1)) (Vec3.sub (pos f.1) (pos f.2.1))

/-- One step of `computeVertexNormals`: add the face's cross product to
the normal of each of its three vertices. -/
def addFaceNormal (pos : Nat × Nat → Vec3) (n : Nat × Nat → Vec3) (f : Face) :
    Nat × Nat → Vec3 :=
  fun v =>
    if v = f.1 ∨ v = f.2.1 ∨ v = f.2.2 then Vec3.add (n v) (faceCross pos f) else n v

/-- `BufferGeometry.computeVertexNormals` up to the final per-vertex
normalization: the accumulated cross-product sum at each vertex. (The
final `normalize()` only rescales each vector, so direction facts about
this sum are direction facts about the stored normals.) -/
def accumulatedNormals (pos : Nat × Nat → Vec3) (faces : List Face) :
    Nat × Nat → Vec3 :=
  faces.foldl (addFaceNormal pos) (fun _ => ⟨0, 0, 0⟩)

/-- The position buffer of the scene's geometry:
`PlaneGeometry(10, 10, 512, 512)`. Displacement mapping runs in the
material's vertex shader and never writes this buffer. -/
def sceneBasePositions : Nat × Nat → Vec3 := planePosition 10 10 512 512

/-- The normals the effect at Viewer3D.jsx lines 50-55 ("Ensure normals
are updated after displacement") leaves on the geometry: it re-runs
`computeVertexNormals` when `depthMap` changes, but that function reads
only the geometry's (undisplaced) position buffer — the depth map is not
an input to the computation. -/
def sceneLightingNormal (depthMap : ℚ → ℚ → ℚ) (v : Nat × Nat) : Vec3 :=
  accumulatedNormals sceneBasePositions (planeFaces 512 512) v

/-- Vertex position of the displaced (terrain) surface as the vertex
shader computes it: base position plus the flat plane's object normal
`(0, 0, 1)` times the sampled displacement at the vertex's uv. -/
def displacedPosition (depth : ℚ → ℚ → ℚ) (scale bias : ℚ) (v : Nat × Nat) : Vec3 :=
  let p := sceneBasePositions v
  let uv := planeUV 512 512 v
  ⟨p.x, p.y, p.z + displacementAt depth scale bias uv.1 uv.2⟩

/-- Mean vertical displacement over all `(gridX+1) * (gridY+1)` vertices
of the scene mesh, at the material's scale and bias. -/
def meanDisplacement (depth : ℚ → ℚ → ℚ) (scale bias : ℚ) (res : Nat) : ℚ :=
  (∑ v : Fin (res + 1) × Fin (res + 1),
      displacementAt depth scale bias (planeUV res res (v.1.val, v.2.val)).1
        (planeUV res res (v.1.val, v.2.val)).2) / (((res + 1) * (res + 1) : Nat) : ℚ)

/-! ## Viewer3D component and the viewer's camera lifetime -/

/-- Configuration of the `<OrbitControls>` element
(Viewer3D.jsx lines 69-74). -/
structure ControlsConfig where
  enableDamping : Bool
  dampingFactor : ℚ
  minDistance : ℚ
  maxDistance : ℚ
deriving DecidableEq, Repr

/-- The scene's controls: `enableDamping`, `dampingFactor={0.05}`,
`minDistance={5}`, `maxDistance={30}`. -/
def viewerControlsConfig : ControlsConfig :=
  { enableDamping := true, dampingFactor := 1 / 20, minDistance := 5, maxDistance := 30 }

/-- Camera State of one mounted viewer: camera position and orbit target
(`<PerspectiveCamera position={[0, 12, 12]}>` with the controls' default
target at the origin). -/
structure CameraState where
  posX : ℚ
  posY : ℚ
  posZ : ℚ
  targetX : ℚ
  targetY : ℚ
  targetZ : ℚ
deriving DecidableEq, Repr

/-- The camera a freshly mounted viewer starts with. -/
def defaultCameraState : CameraState :=
  { posX := 0, posY := 12, posZ := 12, targetX := 0, targetY := 0, targetZ := 0 }

/-- JavaScript truthiness of an optional URL (`!imageUrl`). -/
def urlPresent (u : Option Url) : Bool := u.isSome

/-- What `Viewer3D` renders: `none` models the `return null` branch; a
mounted viewer holds the two texture URLs the canvas loads and the
controls configuration. -/
structure ViewerCanvas where
  imageUrl : Url
  depthUrl : Url
  controls : ControlsConfig
deriving DecidableEq, Repr

/-- `Viewer3D({ imageUrl, depthUrl })` (Viewer3D.jsx lines 62-103): the
guard `if (!imageUrl || !depthUrl) return null` precedes any canvas or
texture work. -/
def Viewer3D (imageUrl depthUrl : Option Url) : Option ViewerCanvas :=
  if urlPresent imageUrl = false ∨ urlPresent depthUrl = false then none
  else
    match imageUrl, depthUrl with
    | some i, some d => some { imageUrl := i, depthUrl := d, controls := viewerControlsConfig }
    | _, _ => none

/-- Whether `Home` renders a viewer: `depthUrl && previewUrl`
(page.jsx line 102) — the canvas, and with it the camera and controls
state, exists only while both URLs are present. -/
def viewerMounted (s : HomeState) : Bool :=
  urlPresent s.depthUrl && urlPresent s.previewUrl

/-- State of the page together with the camera of the active viewer
(`some` exactly while a viewer is mounted). -/
structure AppState where
  home : HomeState
  camera : Option CameraState
deriving DecidableEq, Repr

/-- React reconciliation after a state update: a viewer newly mounted
starts from the default camera; an unmount discards the camera; a viewer
that stays mounted keeps its camera (prop changes do not remount it). -/
def syncViewer (a : AppState) : AppState :=
  if viewerMounted a.home then
    match a.camera with
    | some _ => a
    | none => { a with camera := some defaultCameraState }
  else { a with camera := none }

/-- Events at the app level: page UI events, and the user moving the
camera of the mounted viewer (orbit / pan / zoom writing Camera State). -/
inductive AppEvent where
  | ui (e : UIEvent)
  | cameraSet (c : CameraState)
deriving DecidableEq, Repr

/-- One app event: UI events update the page state and reconcile the
viewer; camera interaction writes the camera only while one is mounted. -/
def stepApp (a : AppState) (e : AppEvent) : AppState :=
  match e with
  | AppEvent.ui e => syncViewer { a with home := (stepUI a.home e).1 }
  | AppEvent.cameraSet c =>
      match a.camera with
      | some _ => { a with camera := some c }
      | none => a

/-- Run a list of app events. -/
def runApp (a : AppState) (es : List AppEvent) : AppState :=
  es.foldl stepApp a

/-- The initial app state: initial page state, no viewer mounted. -/
def initialAppState : AppState := { home := initialHomeState, camera := none }

/-! ## Interaction Controller dynamics (spec-modelled)

Modelled from the spec: the Interaction Controller (§4.4) translates
drag and scroll events into Camera State updates, "clamped to configured
min/max distance, with configurable damping so motion decelerates smoothly
rather than stopping instantly". The controller's implementation (drei's
`OrbitControls`) is library code outside the repository; only its
configuration (Viewer3D.jsx lines 69-74) is source. -/

/-- Clamp a value into `[lo, hi]`. -/
def clampQ (lo hi v : ℚ) : ℚ := max lo (min hi v)

/-- Modelled from the spec: the controller's per-view dynamic state — the
zoom distance from the orbit target and the residual rotation velocity
that damping decays. -/
structure OrbitState where
  distance : ℚ
  rotVelocity : ℚ
deriving DecidableEq, Repr

/-- Modelled from the spec: pointer/scroll input plus the per-frame update
tick that applies damping. -/
inductive PointerEvent where
  | drag (delta : ℚ)
  | scroll (factor : ℚ)
  | frame
deriving DecidableEq, Repr

/-- Modelled from the spec: one controller update. A scroll dollies the
distance by a factor and clamps it into `[minDistance, maxDistance]`; a
drag adds rotation velocity; each frame scales the residual velocity by
`1 - dampingFactor` when damping is enabled (zeroing it instantly when
not). -/
def orbitStep (cfg : ControlsConfig) (st : OrbitState) (e : PointerEvent) : OrbitState :=
  match e with
  | PointerEvent.drag d => { st with rotVelocity := st.rotVelocity + d }
  | PointerEvent.scroll f =>
      { st with distance := clampQ cfg.minDistance cfg.maxDistance (st.distance * f) }
  | PointerEvent.frame =>
      { st with rotVelocity :=
          if cfg.enableDamping then st.rotVelocity * (1 - cfg.dampingFactor) else 0 }

/-- Run a list of pointer events through the controller. -/
def orbitRun (cfg : ControlsConfig) (st : OrbitState) (es : List PointerEvent) : OrbitState :=
  es.foldl (orbitStep cfg) st

/-! ## Helper lemmas -/

/-- `PlaneGeometry(w, h, gridX, gridY)` generates
`(gridX + 1) * (gridY + 1)` vertices. -/
theorem planeVertexList_length (w h : ℚ) (gridX gridY : Nat) :
    (planeVertexList w h gridX gridY).length = (gridX + 1) * (gridY + 1) := by
  simp [planeVertexList, List.length_flatMap, Function.comp_def, List.map_const',
    List.sum_replicate, smul_eq_mul, Nat.mul_comm]

/-! ## Claim theorems -/

/-- C9: for every call to `Viewer3D` where `imageUrl` or `depthUrl` is
absent, `Viewer3D` returns `null` and renders nothing. -/
theorem viewer_renders_nothing_without_urls (imageUrl depthUrl : Option Url)
    (h : imageUrl = none ∨ depthUrl = none) :
    Viewer3D imageUrl depthUrl = none := by
  rcases h with h | h <;> subst h <;> simp [Viewer3D, urlPresent]

/-- Witness for C9 at a concrete input: a present image URL but an absent
depth URL renders nothing. -/
theorem viewer_renders_nothing_without_urls_witness :
    Viewer3D (some { host := UrlHost.otherHost, path := 7 }) none = none :=
  viewer_renders_nothing_without_urls _ none (Or.inr rfl)

/-- C10: when no file is selected `handleUpload` changes nothing; when a
file is selected, the state while the request is in flight has
`loading = true` and every completion path — ok response, non-ok response,
thrown network error — restores `loading = false`. -/
theorem loading_flag_lifecycle (s : HomeState) (o : FetchOutcome) :
    (s.selectedFile = none →
      handleUpload s o = { midState := none, finalState := s, alerts := [] }) ∧
    (s.selectedFile.isSome = true →
      (handleUpload s o).midState = some { s with loading := true } ∧
      (handleUpload s o).finalState.loading = false) := by
  constructor
  · intro h
    simp [handleUpload, handleUploadStart, h]
  · intro h
    rcases Option.isSome_iff_exists.mp h with ⟨f, hf⟩
    cases o <;> simp [handleUpload, handleUploadStart, uploadCompletion, hf]

/-- Witness for C10 at a concrete input: with a file selected and a thrown
network error, the request ran with `loading = true` and ended with
`loading = false`. -/
theorem loading_flag_lifecycle_witness :
    (handleUpload { initialHomeState with selectedFile := some 1 }
        FetchOutcome.networkError).midState =
      some { initialHomeState with selectedFile := some 1, loading := true } ∧
    (handleUpload { initialHomeState with selectedFile := some 1 }
        FetchOutcome.networkError).finalState.loading = false :=
  (loading_flag_lifecycle { initialHomeState with selectedFile := some 1 }
    FetchOutcome.networkError).2 rfl

/-- C2 counterexample: image A (file 1) is submitted, then image B
(file 2) is submitted while A is still in flight. In the interleaving
where B's response arrives before A's, A's late completion overwrites B's
result: the final state holds A's depth map URL (path 100), not B's
(path 200) — `handleUpload` compares no identity or token before
`setDepthUrl`. -/
theorem stale_completion_overwrites_newer_result :
    (runUI initialHomeState
        [UIEvent.fileChange (some 1), UIEvent.uploadStart,
         UIEvent.fileChange (some 2), UIEvent.uploadStart,
         UIEvent.uploadComplete (FetchOutcome.ok { host := UrlHost.localhost, path := 200 }),
         UIEvent.uploadComplete (FetchOutcome.ok { host := UrlHost.localhost, path := 100 })]).depthUrl
      = some { host := UrlHost.loopback127, path := 100 } ∧
    ({ host := UrlHost.loopback127, path := 100 } : Url) ≠
      { host := UrlHost.loopback127, path := 200 } := by
  constructor
  · rfl
  · decide

/-- C2 amended: the final depth URL reflects whichever request's
completion is processed last (last-completion-wins), because each
completion overwrites `depthUrl` unconditionally with its own
host-rewritten `depth_map_url`; no identity/token comparison discards
stale results. -/
theorem last_processed_completion_wins (s : HomeState) (urls : List Url)
    (h : urls ≠ []) :
    (runUI s (urls.map fun u => UIEvent.uploadComplete (FetchOutcome.ok u))).depthUrl
      = some (fixBackendHost (urls.getLast h)) := by
  induction urls generalizing s with
  | nil => exact absurd rfl h
  | cons u us ih =>
      cases us with
      | nil => simp [runUI, stepUI, uploadCompletion]
      | cons u2 us2 =>
          have hne : u2 :: us2 ≠ [] := by simp
          rw [List.getLast_cons hne]
          simpa [runUI, stepUI] using
            ih (s := (uploadCompletion s (FetchOutcome.ok u)).1) hne

/-- Witness for the amended C2 at a concrete input: with two completions
processed in the order [path 200, path 100], the final depth URL is the
host-rewritten path-100 URL — the last one processed. -/
theorem last_processed_completion_wins_witness :
    (runUI initialHomeState
        ([{ host := UrlHost.localhost, path := 200 },
          { host := UrlHost.localhost, path := 100 }].map
          fun u => UIEvent.uploadComplete (FetchOutcome.ok u))).depthUrl
      = some (fixBackendHost { host := UrlHost.localhost, path := 100 }) :=
  last_processed_completion_wins initialHomeState
    [{ host := UrlHost.localhost, path := 200 }, { host := UrlHost.localhost, path := 100 }]
    (by decide)

/-- C6 counterexample: the scene's mesh is
`PlaneGeometry(10, 10, 512, 512)` — the configured grid resolution passed
to the build is 512 — but its vertex count is 513 * 513 = 263169, not
512² = 262144. -/
theorem vertex_count_differs_from_resolution_sq :
    (planeVertexList 10 10 512 512).length ≠ 512 * 512 := by
  rw [planeVertexList_length]
  decide

/-- C6 amended: a mesh built at grid resolution
`resolution × resolution` (the segment counts passed to `PlaneGeometry`)
has `(resolution + 1)²` vertices, since each side carries one more vertex
row than segments. -/
theorem vertex_count_is_succ_resolution_sq (w h : ℚ) (resolution : Nat) :
    (planeVertexList w h resolution resolution).length = (resolution + 1) ^ 2 := by
  rw [planeVertexList_length, sq]

/-- C8 counterexample: upload image A, move the camera, then upload image
B. Selecting B resets `depthUrl` to `null`, which unmounts the viewer
(`depthUrl && previewUrl` fails), discarding its Camera State; when B's
result arrives the viewer remounts with the default camera. The new
Reconstruction Result thus did change the camera: it went from the user's
adjusted pose back to the default. -/
theorem camera_reset_on_new_upload :
    (runApp initialAppState
        [AppEvent.ui (UIEvent.fileChange (some 1)), AppEvent.ui UIEvent.uploadStart,
         AppEvent.ui (UIEvent.uploadComplete (FetchOutcome.ok { host := UrlHost.localhost, path := 100 })),
         AppEvent.cameraSet { posX := 0, posY := 6, posZ := 6, targetX := 0, targetY := 0, targetZ := 0 }]).camera
      = some { posX := 0, posY := 6, posZ := 6, targetX := 0, targetY := 0, targetZ := 0 } ∧
    (runApp initialAppState
        [AppEvent.ui (UIEvent.fileChange (some 1)), AppEvent.ui UIEvent.uploadStart,
         AppEvent.ui (UIEvent.uploadComplete (FetchOutcome.ok { host := UrlHost.localhost, path := 100 })),
         AppEvent.cameraSet { posX := 0, posY := 6, posZ := 6, targetX := 0, targetY := 0, targetZ := 0 },
         AppEvent.ui (UIEvent.fileChange (some 2)), AppEvent.ui UIEvent.uploadStart,
         AppEvent.ui (UIEvent.uploadComplete (FetchOutcome.ok { host := UrlHost.localhost, path := 200 }))]).camera
      = some defaultCameraState ∧
    ({ posX := 0, posY := 6, posZ := 6, targetX := 0, targetY := 0, targetZ := 0 } : CameraState)
      ≠ defaultCameraState := by
  refine ⟨rfl, rfl, ?_⟩
  decide

/-- C8 amended: Camera State is independent of a Reconstruction Result
only while the viewer stays mounted: a completed upload (which changes
`depthUrl` from one present URL to another) leaves the camera untouched,
but selecting a new file resets `depthUrl` to `null`, unmounting the
viewer and discarding its Camera State, so the next result is viewed from
the default camera. -/
theorem camera_persists_while_viewer_mounted (a : AppState) (c : CameraState) (u : Url)
    (f : Nat) (hc : a.camera = some c) (hm : viewerMounted a.home = true) :
    (stepApp a (AppEvent.ui (UIEvent.uploadComplete (FetchOutcome.ok u)))).camera = some c ∧
    (stepApp a (AppEvent.ui (UIEvent.fileChange (some f)))).camera = none := by
  have hp : a.home.previewUrl.isSome = true := by
    have := hm
    simp [viewerMounted, urlPresent, Bool.and_eq_true] at this
    exact this.2
  constructor
  · simp [stepApp, stepUI, uploadCompletion, syncViewer, viewerMounted, urlPresent, hp, hc]
  · simp [stepApp, stepUI, handleFileChange, syncViewer, viewerMounted, urlPresent]

/-- Witness for the amended C8 at a concrete input: with a mounted viewer
and an adjusted camera, a completed upload keeps the adjusted camera. -/
theorem camera_persists_while_viewer_mounted_witness :
    (stepApp
        { home := { selectedFile := some 1, previewUrl := some (objectUrl 1),
                    depthUrl := some { host := UrlHost.loopback127, path := 100 },
                    loading := true },
          camera := some { posX := 0, posY := 6, posZ := 6,
                           targetX := 0, targetY := 0, targetZ := 0 } }
        (AppEvent.ui (UIEvent.uploadComplete
          (FetchOutcome.ok { host := UrlHost.localhost, path := 200 })))).camera
      = some { posX := 0, posY := 6, posZ := 6, targetX := 0, targetY := 0, targetZ := 0 } :=
  (camera_persists_while_viewer_mounted
    { home := { selectedFile := some 1, previewUrl := some (objectUrl 1),
                depthUrl := some { host := UrlHost.loopback127, path := 100 },
                loading := true },
      camera := some { posX := 0, posY := 6, posZ := 6,
                       targetX := 0, targetY := 0, targetZ := 0 } }
    { posX := 0, posY := 6, posZ := 6, targetX := 0, targetY := 0, targetZ := 0 }
    { host := UrlHost.localhost, path := 200 } 2 rfl (by decide)).1

/-- Clamping lands in the interval when the interval is nonempty. -/
theorem clampQ_mem (lo hi v : ℚ) (h : lo ≤ hi) :
    lo ≤ clampQ lo hi v ∧ clampQ lo hi v ≤ hi :=
  ⟨le_max_left _ _, max_le h (min_le_left _ _)⟩

/-- C7: with the scene's controls configuration
(`minDistance 5`, `maxDistance 30`, damping enabled at factor 0.05), every
sequence of drag/scroll/frame events keeps the zoom distance within
[minDistance, maxDistance], and damping shrinks a nonzero residual
velocity each frame without zeroing it instantly. -/
theorem orbit_distance_clamped_and_damped (es : List PointerEvent) (st : OrbitState)
    (h1 : viewerControlsConfig.minDistance ≤ st.distance)
    (h2 : st.distance ≤ viewerControlsConfig.maxDistance) :
    (viewerControlsConfig.minDistance ≤ (orbitRun viewerControlsConfig st es).distance ∧
      (orbitRun viewerControlsConfig st es).distance ≤ viewerControlsConfig.maxDistance) ∧
    (∀ st2 : OrbitState, st2.rotVelocity ≠ 0 →
      |(orbitStep viewerControlsConfig st2 PointerEvent.frame).rotVelocity| < |st2.rotVelocity| ∧
      (orbitStep viewerControlsConfig st2 PointerEvent.frame).rotVelocity ≠ 0) := by
  constructor
  · induction es generalizing st with
    | nil => exact ⟨h1, h2⟩
    | cons e es ih =>
        cases e with
        | drag d => exact ih _ h1 h2
        | frame => exact ih _ h1 h2
        | scroll f =>
            have hb := clampQ_mem viewerControlsConfig.minDistance
              viewerControlsConfig.maxDistance (st.distance * f) (by norm_num [viewerControlsConfig])
            exact ih _ hb.1 hb.2
  · intro st2 hv
    have hd : (orbitStep viewerControlsConfig st2 PointerEvent.frame).rotVelocity
        = st2.rotVelocity * (19 / 20) := by
      norm_num [orbitStep, viewerControlsConfig]
    constructor
    · rw [hd, abs_mul]
      have : |(19 / 20 : ℚ)| = 19 / 20 := by norm_num
      rw [this]
      exact mul_lt_of_lt_one_right (abs_pos.mpr hv) (by norm_num)
    · rw [hd]
      exact mul_ne_zero hv (by norm_num)

/-- Witness for C7 at a concrete input: starting at distance 12, a drastic
zoom-out scroll (factor 100) is clamped back into the bounds. -/
theorem orbit_distance_clamped_and_damped_witness :
    viewerControlsConfig.minDistance ≤
      (orbitRun viewerControlsConfig { distance := 12, rotVelocity := 0 }
        [PointerEvent.scroll 100]).distance ∧
    (orbitRun viewerControlsConfig { distance := 12, rotVelocity := 0 }
        [PointerEvent.scroll 100]).distance ≤ viewerControlsConfig.maxDistance :=
  (orbit_distance_clamped_and_damped [PointerEvent.scroll 100]
    { distance := 12, rotVelocity := 0 } (by norm_num [viewerControlsConfig])
    (by norm_num [viewerControlsConfig])).1

/-- C1: for every well-formed image, every remote-service failure mode
(timeout, auth failure, malformed response, zero connectivity) is absorbed
by the fallback strategy: the pipeline reaches `Ready` with a usable depth
map (image-sized, values in [0, 1]) tagged `fallback`, the frontend shows
no alert and stores a depth URL; an alert is shown only when the pipeline
itself failed with `InvalidInputError` or `NormalizationFailure`. -/
theorem upload_pipeline_absorbs_remote_failures (img : ImageAsset) (rf : RemoteFailure)
    (s : HomeState) (k : Nat) (hw : img.wellFormed) (hs : s.selectedFile = some k) :
    pipelineFinalState (some img) (RemoteResult.fail rf) = PipelineFinal.ready ∧
    (∃ dm, backendPipeline (some img) (RemoteResult.fail rf) =
        Except.ok (dm, EstimationPath.fallback) ∧
      dm.width = img.width ∧ dm.height = img.height ∧
      ∀ x y, 0 ≤ dm.val x y ∧ dm.val x y ≤ 1) ∧
    (handleUpload s (backendRespond (some img) (RemoteResult.fail rf))).alerts = [] ∧
    (handleUpload s (backendRespond (some img)
        (RemoteResult.fail rf))).finalState.depthUrl.isSome = true ∧
    (∀ input remote, (handleUpload s (backendRespond input remote)).alerts ≠ [] →
      ∃ e, backendPipeline input remote = Except.error e) := by
  obtain ⟨hw1, hw2⟩ := hw
  have hcond : ¬(img.width = 0 ∨ img.height = 0 ∨
      (fallbackEstimate img).width = 0 ∨ (fallbackEstimate img).height = 0) := by
    simp [fallbackEstimate]
    omega
  have hbp : backendPipeline (some img) (RemoteResult.fail rf) =
      Except.ok
        ({ width := img.width, height := img.height,
           val := fun x y => clip01 ((fallbackEstimate img).val
             (x * (fallbackEstimate img).width / img.width)
             (y * (fallbackEstimate img).height / img.height)) },
         EstimationPath.fallback) := by
    simp [backendPipeline, estimate, normalize, hcond]
  refine ⟨?_, ?_, ?_, ?_, ?_⟩
  · simp [pipelineFinalState, hbp]
  · refine ⟨_, hbp, rfl, rfl, fun x y => ?_⟩
    constructor
    · exact le_max_left 0 _
    · exact max_le (by norm_num) (min_le_left _ _)
  · simp [backendRespond, hbp, handleUpload, handleUploadStart, hs, uploadCompletion]
  · simp [backendRespond, hbp, handleUpload, handleUploadStart, hs, uploadCompletion]
  · intro input remote halerts
    cases hbp2 : backendPipeline input remote with
    | ok v =>
        exfalso
        apply halerts
        simp [backendRespond, hbp2, handleUpload, handleUploadStart, hs, uploadCompletion]
    | error e => exact ⟨e, rfl⟩

/-- Witness for C1 at a concrete input: a 2×2 mid-gray image with the
remote strategy timing out still reaches `Ready`, and the frontend shows
no alert. -/
theorem upload_pipeline_absorbs_remote_failures_witness :
    pipelineFinalState (some { width := 2, height := 2, pix := fun _ _ => 1 / 2 })
        (RemoteResult.fail RemoteFailure.timeout) = PipelineFinal.ready ∧
    (handleUpload { initialHomeState with selectedFile := some 1 }
        (backendRespond (some { width := 2, height := 2, pix := fun _ _ => 1 / 2 })
          (RemoteResult.fail RemoteFailure.timeout))).alerts = [] :=
  ⟨(upload_pipeline_absorbs_remote_failures
      { width := 2, height := 2, pix := fun _ _ => 1 / 2 } RemoteFailure.timeout
      { initialHomeState with selectedFile := some 1 } 1
      ⟨by norm_num, by norm_num⟩ rfl).1,
   (upload_pipeline_absorbs_remote_failures
      { width := 2, height := 2, pix := fun _ _ => 1 / 2 } RemoteFailure.timeout
      { initialHomeState with selectedFile := some 1 } 1
      ⟨by norm_num, by norm_num⟩ rfl).2.2.1⟩

/-- For a constant depth field, the mean vertical displacement over the
mesh is the displaced constant `c * scale + bias`. -/
theorem meanDisplacement_const (c scale bias : ℚ) (res : Nat) :
    meanDisplacement (fun _ _ => c) scale bias res = c * scale + bias := by
  have hval : ∀ u v : ℚ, displacementAt (fun _ _ => c) scale bias u v = c * scale + bias := by
    intro u v
    simp [displacementAt, sampleTexture]
  simp only [meanDisplacement, hval]
  rw [Finset.sum_const, Finset.card_univ]
  have hn : (((res + 1) * (res + 1) : Nat) : ℚ) ≠ 0 := by positivity
  simp only [Fintype.card_prod, Fintype.card_fin, nsmul_eq_mul]
  rw [mul_comm, mul_div_cancel_right₀ _ hn]

/-- C3: the material hardcodes `displacementScale: 2.5` with
`displacementBias: -0.5` (comment: "Center the displacement"), but the
bias does not center the field: already for a uniform mid-gray depth map
(value 1/2 everywhere) the mean vertical displacement over all mesh
vertices is 1/2 * 2.5 - 0.5 = 3/4, not within a small epsilon of zero. -/
theorem mean_displacement_not_centered_at_code_bias :
    meanDisplacement (fun _ _ => 1 / 2) sceneDisplacementScale sceneDisplacementBias 512
      = 3 / 4 ∧ (3 / 4 : ℚ) ≠ 0 := by
  constructor
  · rw [meanDisplacement_const]
    norm_num [sceneDisplacementScale, sceneDisplacementBias]
  · norm_num

/-- The synthetic test input of §8: a depth map bright at the
data-coordinate corner (0, 0) and black elsewhere. -/
def cornerDepthData : ℚ → ℚ → ℚ := fun x y => if x = 0 ∧ y = 0 then 1 else 0

/-- The paired image: visually distinct (bright) at the same data
corner. -/
def cornerImageData : ℚ → ℚ → ℚ := fun x y => if x = 0 ∧ y = 0 then 1 else 0

/-- C5: the color texture and the depth texture use the same
vertical-orientation convention — the scene sets `flipY = false` on both,
so at every (u, v) both sample the same source coordinate — and for the
synthetic corner pair the corner (u, v) = (0, 0) carries both the maximal
displacement (2, every other sampled point gives -1/2) and the distinct
color: the bright depth corner and the distinct image corner coincide,
with no vertical-flip mismatch. -/
theorem texture_and_depth_share_orientation (u v : ℚ) :
    sampleCoord sceneColorTexture u v = sampleCoord sceneDepthTexture u v ∧
    displacementAt cornerDepthData sceneDisplacementScale sceneDisplacementBias 0 0 = 2 ∧
    colorAt cornerImageData 0 0 = 1 ∧
    (¬(u = 0 ∧ v = 0) →
      displacementAt cornerDepthData sceneDisplacementScale sceneDisplacementBias u v
        < displacementAt cornerDepthData sceneDisplacementScale sceneDisplacementBias 0 0 ∧
      colorAt cornerImageData u v ≠ colorAt cornerImageData 0 0) := by
  refine ⟨rfl, ?_, ?_, ?_⟩
  · norm_num [displacementAt, sampleTexture, sceneDepthTexture, flipEffect, loadedTexture,
      sampleCoord, cornerDepthData, sceneDisplacementScale, sceneDisplacementBias]
  · norm_num [colorAt, sampleTexture, sceneColorTexture, flipEffect, loadedTexture,
      sampleCoord, cornerImageData]
  · intro h
    constructor
    · simp only [displacementAt, sampleTexture, sceneDepthTexture, flipEffect, loadedTexture,
        sampleCoord, cornerDepthData, sceneDisplacementScale, sceneDisplacementBias]
      norm_num [h]
    · simp only [colorAt, sampleTexture, sceneColorTexture, flipEffect, loadedTexture,
        sampleCoord, cornerImageData]
      norm_num [h]

/-- Witness for C5 at a concrete input: at (u, v) = (1, 1) both textures
sample the same coordinate, and the displacement there is strictly below
the corner's. -/
theorem texture_and_depth_share_orientation_witness :
    sampleCoord sceneColorTexture 1 1 = sampleCoord sceneDepthTexture 1 1 ∧
    displacementAt cornerDepthData sceneDisplacementScale sceneDisplacementBias 1 1
      < displacementAt cornerDepthData sceneDisplacementScale sceneDisplacementBias 0 0 :=
  ⟨(texture_and_depth_share_orientation 1 1).1,
   ((texture_and_depth_share_orientation 1 1).2.2.2 (by norm_num)).1⟩

/-- Unpack membership in the `PlaneGeometry` face list. -/
theorem mem_planeFaces {gridX gridY : Nat} {f : Face} (hf : f ∈ planeFaces gridX gridY) :
    ∃ ix iy, ix < gridX ∧ iy < gridY ∧
      (f = ((ix, iy), (ix, iy + 1), (ix + 1, iy)) ∨
       f = ((ix, iy + 1), (ix + 1, iy + 1), (ix + 1, iy))) := by
  simp only [planeFaces, List.mem_flatMap, List.mem_range, List.mem_cons,
    List.mem_singleton] at hf
  obtain ⟨iy, hiy, ix, hix, hf⟩ := hf
  exact ⟨ix, iy, hix, hiy, by tauto⟩

/-- Every face of the flat plane has a purely vertical cross product: its
x and y components vanish. -/
theorem faceCross_flat_xy {w h : ℚ} {gridX gridY : Nat} {f : Face}
    (hf : f ∈ planeFaces gridX gridY) :
    (faceCross (planePosition w h gridX gridY) f).x = 0 ∧
    (faceCross (planePosition w h gridX gridY) f).y = 0 := by
  obtain ⟨ix, iy, _, _, hf | hf⟩ := mem_planeFaces hf <;> subst hf <;>
    constructor <;>
    · simp only [faceCross, planePosition, Vec3.sub, Vec3.cross]
      push_cast
      ring

/-- The `computeVertexNormals` accumulation preserves "x and y components
are zero" when every accumulated face cross is purely vertical. -/
theorem accumulate_xy_zero (pos : Nat × Nat → Vec3) (faces : List Face)
    (hface : ∀ f ∈ faces, (faceCross pos f).x = 0 ∧ (faceCross pos f).y = 0)
    (n : Nat × Nat → Vec3) (hn : ∀ v, (n v).x = 0 ∧ (n v).y = 0) :
    ∀ v, ((faces.foldl (addFaceNormal pos) n) v).x = 0 ∧
      ((faces.foldl (addFaceNormal pos) n) v).y = 0 := by
  induction faces generalizing n with
  | nil => exact hn
  | cons f fs ih =>
      simp only [List.foldl_cons]
      apply ih
      · intro g hg
        exact hface g (List.mem_cons_of_mem f hg)
      · intro v2
        by_cases hv : v2 = f.1 ∨ v2 = f.2.1 ∨ v2 = f.2.2
        · have hc := hface f (List.mem_cons_self f fs)
          simp [addFaceNormal, hv, Vec3.add, (hn v2).1, (hn v2).2, hc.1, hc.2]
        · simp [addFaceNormal, hv, hn v2]

/-- Failing input for C4: the depth map bright at data coordinate (0, 1)
— the coordinate mesh vertex (0, 0) samples, its uv being (0, 1) — and
black elsewhere, at the material's scale 2.5 and bias -0.5. -/
def spikeDepthData : ℚ → ℚ → ℚ := fun x y => if x = 0 ∧ y = 1 then 1 else 0

/-- The face of the scene mesh adjacent to vertex (0, 0). -/
def spikeCornerFace : Face := ((0, 0), (0, 1), (1, 0))

/-- C4: the normals used for lighting are those of the flat base plane,
not of the displaced terrain. `computeVertexNormals` — both the initial
call and the re-run of the effect that fires after the depth map loads —
reads only the geometry's position buffer, which the shader-side
displacement never writes: the resulting normals are independent of the
depth map and purely vertical (x- and y-components zero, i.e. the base
plane's direction) at every vertex, whereas for the spike depth map the
displaced surface's own face cross at the corner face has a nonzero
x-component (25/512), so its direction differs from every vertical
normal. -/
theorem lighting_normals_are_base_plane_normals :
    (∀ d₁ d₂ : ℚ → ℚ → ℚ, ∀ vtx, sceneLightingNormal d₁ vtx = sceneLightingNormal d₂ vtx) ∧
    (∀ d : ℚ → ℚ → ℚ, ∀ vtx, (sceneLightingNormal d vtx).x = 0 ∧
      (sceneLightingNormal d vtx).y = 0) ∧
    spikeCornerFace ∈ planeFaces 512 512 ∧
    (faceCross (displacedPosition spikeDepthData sceneDisplacementScale sceneDisplacementBias)
        spikeCornerFace).x = 25 / 512 ∧ (25 / 512 : ℚ) ≠ 0 := by
  refine ⟨fun d₁ d₂ vtx => rfl, ?_, ?_, ?_, by norm_num⟩
  · intro d vtx
    have hbase := accumulate_xy_zero sceneBasePositions (planeFaces 512 512)
      (fun f hf => faceCross_flat_xy hf) (fun _ => ⟨0, 0, 0⟩)
      (fun v => ⟨rfl, rfl⟩) vtx
    exact hbase
  · simp only [planeFaces, spikeCornerFace, List.mem_flatMap, List.mem_range, List.mem_cons,
      List.mem_singleton]
    exact ⟨0, by norm_num, 0, by norm_num, Or.inl rfl⟩
  · norm_num [faceCross, displacedPosition, sceneBasePositions, planePosition, planeUV,
      displacementAt, sampleTexture, sceneDepthTexture, flipEffect, loadedTexture, sampleCoord,
      spikeDepthData, spikeCornerFace, Vec3.sub, Vec3.cross, sceneDisplacementScale,
      sceneDisplacementBias]

end Aerominds
